import Mathlib

/-!
Shallow embedding of the two outlier detectors implemented in the kenchi
sources: `GaussianMixtureOutlierDetector`
(kenchi/outlier_detection/mixture_distns.py) and `PCA`
(kenchi/outlier_detection/reconstruction_based.py).

Python exceptions are modelled by `PyErr`.  Every method is modelled as a
function from the detector state (its instance attributes) to the pair of the
final state and an `Except PyErr` result, so that a method that raises after
having assigned some attributes is represented faithfully: the first component
is the state the instance is left in, whether or not the second component is an
error.  Instance attributes that may be absent (`weights_`, `means_`,
`covariances_`, `precisions_`, `threshold_`, `X_`, the fitted state of the
internal `decomposition.PCA`) are `Option` fields, `none` meaning the
attribute has not been assigned.

The external estimation routines (`sklearn.mixture.GaussianMixture.fit`, i.e.
EM, and `sklearn.decomposition.PCA.fit`, i.e. SVD) are not part of this
repository; they are passed to the embedded `fit` functions as explicit
function arguments producing either the fitted parameters or an error.
-/

open scoped Matrix BigOperators

/-- Python exceptions observable in the embedded methods. -/
inductive PyErr : Type
  /-- `sklearn.exceptions.NotFittedError`, raised by `check_is_fitted` and by
  the scikit-learn estimator methods (`transform`, `score`) of an unfitted
  estimator. -/
  | notFitted
  /-- `ValueError`, raised by hyperparameter validation, by `check_array` on a
  malformed array, and by `np.percentile` on an out-of-range percentile. -/
  | valueError
  /-- `AttributeError`, raised on access to a missing instance attribute. -/
  | attributeError
  deriving DecidableEq

/-- Model of `sklearn.utils.check_array` on a two-dimensional numeric input
whose rows all have `d` entries (the row type `Fin d → ℝ` enforces the
rectangular shape and, over `ℝ`, finiteness of the entries): the remaining
failure mode is an input with no samples, rejected with a `ValueError`
(`ensure_min_samples=1` by default).  On success the array is returned
unchanged. -/
def checkArray {d : ℕ} (X : List (Fin d → ℝ)) : Except PyErr (List (Fin d → ℝ)) :=
  if X.isEmpty then .error .valueError else .ok X

/-- Model of `numpy.percentile(a, q)` with the default linear interpolation:
for a sorted copy `s` of the `n` values, the result is the value at fractional
position `q / 100 * (n - 1)`, linearly interpolated between the two nearest
order statistics.  A percentile outside `[0, 100]` is rejected with a
`ValueError`, as is an empty input. -/
noncomputable def npPercentile (l : List ℝ) (q : ℝ) : Except PyErr ℝ :=
  if q < 0 ∨ 100 < q then .error .valueError
  else if l.isEmpty then .error .valueError
  else
    let s := List.insertionSort (· ≤ ·) l
    let n := s.length
    let pos := q / 100 * ((n : ℝ) - 1)
    let i := (⌊pos⌋).toNat
    let lo := s.getD i 0
    let hi := s.getD (min (i + 1) (n - 1)) 0
    .ok (lo + (pos - (i : ℝ)) * (hi - lo))

/-- Density of the multivariate normal distribution with mean `μ` and
covariance matrix `cov`, as computed by `scipy.stats.multivariate_normal.pdf`:
`(2π)^(-d/2) · det(cov)^(-1/2) · exp(-(x-μ)ᵀ cov⁻¹ (x-μ) / 2)`. -/
noncomputable def multivariateNormalPdf {d : ℕ} (μ : Fin d → ℝ)
    (cov : Matrix (Fin d) (Fin d) ℝ) (x : Fin d → ℝ) : ℝ :=
  (2 * Real.pi) ^ (-(d : ℝ) / 2) * cov.det ^ (-(1 : ℝ) / 2) *
    Real.exp (-(1 / 2) * Matrix.dotProduct (x - μ) (cov⁻¹.mulVec (x - μ)))

/-- Instance attributes of `GaussianMixtureOutlierDetector`.  The four fitted
attributes checked by `check_is_fitted` in `anomaly_score` are separate
`Option` fields; `sklearn.mixture.GaussianMixture.fit` assigns all four. -/
structure GMState (d : ℕ) where
  fpr : ℝ
  weights_ : Option (List ℝ)
  means_ : Option (List (Fin d → ℝ))
  covariances_ : Option (List (Matrix (Fin d) (Fin d) ℝ))
  precisions_ : Option (List (Matrix (Fin d) (Fin d) ℝ))
  threshold_ : Option ℝ

/-- `GaussianMixtureOutlierDetector.__init__(fpr, ...)`: stores the
hyperparameters (only `fpr` matters to the embedded methods; the remaining
EM hyperparameters are absorbed into the estimation function passed to
`gmFit`).  The constructor performs no validation of `fpr`, so construction
always succeeds. -/
def gmNew (d : ℕ) (fpr : ℝ) : Except PyErr (GMState d) :=
  .ok ⟨fpr, none, none, none, none, none⟩

/-- The anomaly score the detector assigns to one sample `x`:
`-log` of the sum, over the zip of the fitted weights, means and covariances,
of `weight * multivariate_normal.pdf(x, mean, cov)` (the body of the list
comprehension in `GaussianMixtureOutlierDetector.anomaly_score`, summed with
`np.sum(..., axis=0)` and negated-logged per sample). -/
noncomputable def gmScoreSample {d : ℕ} (w : List ℝ) (m : List (Fin d → ℝ))
    (c : List (Matrix (Fin d) (Fin d) ℝ)) (x : Fin d → ℝ) : ℝ :=
  -Real.log (((w.zip (m.zip c)).map
    (fun p => p.1 * multivariateNormalPdf p.2.1 p.2.2 x)).sum)

/-- The value returned (or exception raised) by
`GaussianMixtureOutlierDetector.anomaly_score(X)`: first
`check_is_fitted(self, ['weights_', 'means_', 'covariances_', 'precisions_'])`
(a `NotFittedError` if any of the four is absent), then `check_array(X)`, then
the per-sample mixture score. -/
noncomputable def gmAnomalyScoreResult {d : ℕ} (s : GMState d)
    (X : List (Fin d → ℝ)) : Except PyErr (List ℝ) :=
  match s.weights_, s.means_, s.covariances_, s.precisions_ with
  | some w, some m, some c, some _ =>
    match checkArray X with
    | .error e => .error e
    | .ok X1 => .ok (X1.map (gmScoreSample w m c))
  | _, _, _, _ => .error .notFitted

/-- `GaussianMixtureOutlierDetector.anomaly_score(X)` as a state transition:
the method body assigns no attribute, so the instance is left in the input
state and the result is `gmAnomalyScoreResult`. -/
noncomputable def gmAnomalyScore {d : ℕ} (s : GMState d) (X : List (Fin d → ℝ)) :
    GMState d × Except PyErr (List ℝ) :=
  (s, gmAnomalyScoreResult s X)

/-- The output of `sklearn.mixture.GaussianMixture.fit` (external to this
repository): the EM estimates of the weights, means, covariances and
precisions, all assigned together on success. -/
structure EMOut (d : ℕ) where
  weights : List ℝ
  means : List (Fin d → ℝ)
  covariances : List (Matrix (Fin d) (Fin d) ℝ)
  precisions : List (Matrix (Fin d) (Fin d) ℝ)

/-- The state after `super().fit(X)` succeeds inside
`GaussianMixtureOutlierDetector.fit`: the four fitted attributes are assigned;
`threshold_` (and `fpr`) are untouched. -/
def gmSetParams {d : ℕ} (s : GMState d) (r : EMOut d) : GMState d :=
  { s with weights_ := some r.weights, means_ := some r.means,
           covariances_ := some r.covariances, precisions_ := some r.precisions }

/-- `GaussianMixtureOutlierDetector.fit(X)`:
`X = check_array(X)`; `super().fit(X)` (the external EM, argument `em`; on
success it assigns the four fitted attributes); `scores = self.anomaly_score(X)`;
`self.threshold_ = np.percentile(scores, 100.0 * (1.0 - self.fpr))`.  An
exception raised at any stage propagates, leaving the attributes assigned by
the stages already executed. -/
noncomputable def gmFit {d : ℕ} (em : List (Fin d → ℝ) → Except PyErr (EMOut d))
    (s : GMState d) (X : List (Fin d → ℝ)) : GMState d × Except PyErr Unit :=
  match checkArray X with
  | .error e => (s, .error e)
  | .ok X1 =>
    match em X1 with
    | .error e => (s, .error e)
    | .ok r =>
      match gmAnomalyScoreResult (gmSetParams s r) X1 with
      | .error e => (gmSetParams s r, .error e)
      | .ok scores =>
        match npPercentile scores (100 * (1 - s.fpr)) with
        | .error e => (gmSetParams s r, .error e)
        | .ok t => ({ gmSetParams s r with threshold_ := some t }, .ok ())

/-- Any number of consecutive `anomaly_score` calls on a
`GaussianMixtureOutlierDetector`, threading the instance state through the
calls and collecting each call's result. -/
noncomputable def gmScoreRuns {d : ℕ} (s : GMState d) :
    List (List (Fin d → ℝ)) → GMState d × List (Except PyErr (List ℝ))
  | [] => (s, [])
  | X :: rest =>
    let r := gmAnomalyScore s X
    let rr := gmScoreRuns r.1 rest
    (rr.1, r.2 :: rr.2)

/-- Fitted attributes of the internal `sklearn.decomposition.PCA` estimator
used by the kenchi `PCA` detector: the number `m` of retained components,
the components matrix (`components_`, rows = principal axes) and the
per-feature training mean (`mean_`).  The remaining fitted attributes
(explained variance, singular values, noise variance) do not enter any
embedded method body. -/
structure PCAParams (d : ℕ) where
  m : ℕ
  components_ : Matrix (Fin m) (Fin d) ℝ
  mean_ : Fin d → ℝ

/-- Instance attributes of the kenchi `PCA` detector: the `fpr`
hyperparameter, the fitted state of the internal `decomposition.PCA`
(`none` while that estimator is unfitted), the stored training matrix `X_`
and the calibrated `threshold_`. -/
structure PCAState (d : ℕ) where
  fpr : ℝ
  fittedPCA : Option (PCAParams d)
  X_ : Option (List (Fin d → ℝ))
  threshold_ : Option ℝ

/-- `PCA.__init__(fpr, **kwargs)` followed by `self.check_params()`:
construction fails with a `ValueError` iff `fpr < 0.` or `fpr > 1.`;
otherwise the instance starts with no fitted attributes. -/
noncomputable def pcaNew (d : ℕ) (fpr : ℝ) : Except PyErr (PCAState d) :=
  if fpr < 0 ∨ 1 < fpr then .error .valueError
  else .ok ⟨fpr, none, none, none⟩

/-- `decomposition.PCA.transform` on one sample:
`(x - mean_) @ components_.T`. -/
def pcaTransformOne {d : ℕ} (p : PCAParams d) (x : Fin d → ℝ) : Fin p.m → ℝ :=
  p.components_.mulVec (x - p.mean_)

/-- `decomposition.PCA.inverse_transform` on one transformed sample:
`t @ components_ + mean_`. -/
def pcaInverseTransformOne {d : ℕ} (p : PCAParams d) (t : Fin p.m → ℝ) :
    Fin d → ℝ :=
  p.components_.transpose.mulVec t + p.mean_

/-- `PCA.reconstruct` on one sample:
`self._pca.inverse_transform(self._pca.transform(x))`. -/
def pcaReconstructOne {d : ℕ} (p : PCAParams d) (x : Fin d → ℝ) : Fin d → ℝ :=
  pcaInverseTransformOne p (pcaTransformOne p x)

/-- The value returned (or exception raised) by `PCA.reconstruct(X)`: the two
internal estimator calls each begin with `check_is_fitted`, so an unfitted
internal estimator raises a `NotFittedError`; otherwise every row is
reconstructed. -/
def pcaReconstructResult {d : ℕ} (s : PCAState d) (X : List (Fin d → ℝ)) :
    Except PyErr (List (Fin d → ℝ)) :=
  match s.fittedPCA with
  | none => .error .notFitted
  | some p => .ok (X.map (pcaReconstructOne p))

/-- `PCA.reconstruct(X)` as a state transition: the method body assigns no
attribute, so the instance is left in the input state. -/
def pcaReconstruct {d : ℕ} (s : PCAState d) (X : List (Fin d → ℝ)) :
    PCAState d × Except PyErr (List (Fin d → ℝ)) :=
  (s, pcaReconstructResult s X)

/-- The anomaly score of one sample in `PCA.anomaly_score`:
`np.sqrt(np.sum((x - reconstruct(x)) ** 2, axis=1))` restricted to one row,
i.e. the square root of the sum over the features of the squared
reconstruction residual. -/
noncomputable def pcaScoreSample {d : ℕ} (p : PCAParams d) (x : Fin d → ℝ) : ℝ :=
  Real.sqrt (∑ j, (x j - pcaReconstructOne p x j) ^ 2)

/-- The value returned (or exception raised) by `PCA.anomaly_score(X=None)`:
first `if X is None: X = self.X_` (an `AttributeError` if `X_` was never
assigned), then the residual norm of every row, where `reconstruct` raises a
`NotFittedError` if the internal estimator is unfitted. -/
noncomputable def pcaAnomalyScoreResult {d : ℕ} (s : PCAState d)
    (X : Option (List (Fin d → ℝ))) : Except PyErr (List ℝ) :=
  match X with
  | none =>
    match s.X_ with
    | none => .error .attributeError
    | some X0 =>
      match s.fittedPCA with
      | none => .error .notFitted
      | some p => .ok (X0.map (pcaScoreSample p))
  | some X0 =>
    match s.fittedPCA with
    | none => .error .notFitted
    | some p => .ok (X0.map (pcaScoreSample p))

/-- `PCA.anomaly_score(X=None)` as a state transition: the method body assigns
no attribute, so the instance is left in the input state. -/
noncomputable def pcaAnomalyScore {d : ℕ} (s : PCAState d)
    (X : Option (List (Fin d → ℝ))) : PCAState d × Except PyErr (List ℝ) :=
  (s, pcaAnomalyScoreResult s X)

/-- The value returned (or exception raised) by `PCA.score(X)`: a pass-through
to `self._pca.score(X)`, the mean log-likelihood under the probabilistic-PCA
model computed entirely inside scikit-learn; that external computation is the
argument `ext`.  The scikit-learn method begins with `check_is_fitted`, so an
unfitted internal estimator raises a `NotFittedError`. -/
def pcaScoreResult {d : ℕ} (ext : PCAParams d → List (Fin d → ℝ) → ℝ)
    (s : PCAState d) (X : List (Fin d → ℝ)) : Except PyErr ℝ :=
  match s.fittedPCA with
  | none => .error .notFitted
  | some p => .ok (ext p X)

/-- `PCA.score(X)` as a state transition: the method body assigns no
attribute, so the instance is left in the input state. -/
def pcaScore {d : ℕ} (ext : PCAParams d → List (Fin d → ℝ) → ℝ)
    (s : PCAState d) (X : List (Fin d → ℝ)) : PCAState d × Except PyErr ℝ :=
  (s, pcaScoreResult ext s X)

/-- `PCA.fit(X)`:
`self.X_ = check_array(X)`; `self._pca.fit(self.X_)` (the external SVD,
argument `est`; on success it fits the internal estimator);
`anomaly_score = self.anomaly_score()` (scoring the stored training matrix);
`self.threshold_ = np.percentile(anomaly_score, 100. * (1. - self.fpr))`.
An exception raised at any stage propagates, leaving the attributes assigned
by the stages already executed. -/
noncomputable def pcaFit {d : ℕ}
    (est : List (Fin d → ℝ) → Except PyErr (PCAParams d))
    (s : PCAState d) (X : List (Fin d → ℝ)) : PCAState d × Except PyErr Unit :=
  match checkArray X with
  | .error e => (s, .error e)
  | .ok X1 =>
    match est X1 with
    | .error e => ({ s with X_ := some X1 }, .error e)
    | .ok p =>
      match pcaAnomalyScoreResult { s with X_ := some X1, fittedPCA := some p } none with
      | .error e => ({ s with X_ := some X1, fittedPCA := some p }, .error e)
      | .ok scores =>
        match npPercentile scores (100 * (1 - s.fpr)) with
        | .error e => ({ s with X_ := some X1, fittedPCA := some p }, .error e)
        | .ok t =>
          ({ s with X_ := some X1, fittedPCA := some p, threshold_ := some t },
            .ok ())

/-- Any number of consecutive `anomaly_score` calls on a kenchi `PCA`
detector, threading the instance state through the calls and collecting each
call's result. -/
noncomputable def pcaScoreRuns {d : ℕ} (s : PCAState d) :
    List (Option (List (Fin d → ℝ))) → PCAState d × List (Except PyErr (List ℝ))
  | [] => (s, [])
  | X :: rest =>
    let r := pcaAnomalyScore s X
    let rr := pcaScoreRuns r.1 rest
    (rr.1, r.2 :: rr.2)

/-- The Euclidean norm of a `d`-dimensional real vector: the norm of the
corresponding point of `EuclideanSpace ℝ (Fin d)`. -/
noncomputable def euclNorm {d : ℕ} (v : Fin d → ℝ) : ℝ :=
  norm ((WithLp.equiv 2 (Fin d → ℝ)).symm v)

/-- A one-dimensional, one-sample training matrix used to instantiate the
theorems at concrete inputs. -/
def exX : List (Fin 1 → ℝ) := [fun _ => 0]

/-- Concrete one-component mixture parameters (weight 1, mean 0, unit
covariance and precision). -/
def exEMOut : EMOut 1 := ⟨[1], [fun _ => 0], [1], [1]⟩

/-- A concrete stand-in for the external EM estimator, returning
`exEMOut` on every input. -/
def exEM : List (Fin 1 → ℝ) → Except PyErr (EMOut 1) := fun _ => .ok exEMOut

/-- A freshly constructed mixture-detector state with `fpr = 1`. -/
def exGM : GMState 1 := ⟨1, none, none, none, none, none⟩

/-- Concrete fitted parameters of the internal estimator: one retained
component `(1)` in one dimension, zero mean. -/
noncomputable def exP : PCAParams 1 := ⟨1, 1, fun _ => 0⟩

/-- A concrete fitted reconstruction-detector state. -/
noncomputable def exPCA : PCAState 1 := ⟨1 / 100, some exP, some exX, none⟩

/-- A freshly constructed mixture-detector state carrying the out-of-range
hyperparameter `fpr = 1.5`. -/
noncomputable def exBadGM : GMState 1 := ⟨3 / 2, none, none, none, none, none⟩

/-- Concrete indexed mixture parameters for one component in one dimension. -/
noncomputable def exW : Fin 1 → ℝ := fun _ => 1

/-- Concrete indexed component means. -/
noncomputable def exM : Fin 1 → Fin 1 → ℝ := fun _ _ => 0

/-- Concrete indexed component covariances. -/
noncomputable def exC : Fin 1 → Matrix (Fin 1) (Fin 1) ℝ := fun _ => 1

/-- A concrete fitted mixture-detector state built from the indexed
parameters. -/
noncomputable def exGMF : GMState 1 :=
  ⟨1 / 100, some (List.ofFn exW), some (List.ofFn exM), some (List.ofFn exC),
    some [1], none⟩

theorem checkArray_eq_ok {d : ℕ} {X Y : List (Fin d → ℝ)}
    (h : checkArray X = .ok Y) : Y = X ∧ X.isEmpty = false := by
  unfold checkArray at h
  by_cases hX : X.isEmpty
  · simp [hX] at h
  · simp [hX] at h
    exact ⟨h.symm, by simpa using hX⟩

theorem checkArray_not_empty {d : ℕ} {X : List (Fin d → ℝ)}
    (h : X.isEmpty = false) : checkArray X = .ok X := by
  simp [checkArray, h]

theorem gmAnomalyScoreResult_congr {d : ℕ} (s1 s2 : GMState d)
    (X : List (Fin d → ℝ)) (hw : s1.weights_ = s2.weights_)
    (hm : s1.means_ = s2.means_) (hc : s1.covariances_ = s2.covariances_)
    (hp : s1.precisions_ = s2.precisions_) :
    gmAnomalyScoreResult s1 X = gmAnomalyScoreResult s2 X := by
  unfold gmAnomalyScoreResult
  rw [hw, hm, hc, hp]

theorem gmAnomalyScoreResult_fitted {d : ℕ} {s : GMState d} {w : List ℝ}
    {m : List (Fin d → ℝ)} {c cp : List (Matrix (Fin d) (Fin d) ℝ)}
    (hw : s.weights_ = some w) (hm : s.means_ = some m)
    (hc : s.covariances_ = some c) (hp : s.precisions_ = some cp)
    {X : List (Fin d → ℝ)} (hX : X.isEmpty = false) :
    gmAnomalyScoreResult s X = .ok (X.map (gmScoreSample w m c)) := by
  unfold gmAnomalyScoreResult
  rw [hw, hm, hc, hp]
  simp [checkArray_not_empty hX]

theorem gmAnomalyScoreResult_notFitted {d : ℕ} {s : GMState d}
    (h : s.weights_ = none ∨ s.means_ = none ∨ s.covariances_ = none ∨
      s.precisions_ = none) (X : List (Fin d → ℝ)) :
    gmAnomalyScoreResult s X = .error .notFitted := by
  unfold gmAnomalyScoreResult
  rcases s with ⟨f, w, m, c, p, t⟩
  rcases w <;> rcases m <;> rcases c <;> rcases p <;> simp_all

theorem gmFit_ok_elim {d : ℕ} {em : List (Fin d → ℝ) → Except PyErr (EMOut d)}
    {s s' : GMState d} {X : List (Fin d → ℝ)}
    (h : gmFit em s X = (s', .ok ())) :
    ∃ r scores t, X.isEmpty = false ∧ em X = .ok r ∧
      gmAnomalyScoreResult (gmSetParams s r) X = .ok scores ∧
      npPercentile scores (100 * (1 - s.fpr)) = .ok t ∧
      s' = { gmSetParams s r with threshold_ := some t } := by
  unfold gmFit at h
  split at h
  · simp at h
  next X1 hc =>
    obtain ⟨hX1, hne⟩ := checkArray_eq_ok hc
    subst hX1
    split at h
    · simp at h
    next r he =>
      split at h
      · simp at h
      next scores hs =>
        split at h
        · simp at h
        next t hq =>
          simp only [Prod.mk.injEq] at h
          exact ⟨r, scores, t, hne, he, hs, hq, h.1.symm⟩

theorem pcaAnomalyScoreResult_congr {d : ℕ} (s1 s2 : PCAState d)
    (X : Option (List (Fin d → ℝ))) (hX : s1.X_ = s2.X_)
    (hf : s1.fittedPCA = s2.fittedPCA) :
    pcaAnomalyScoreResult s1 X = pcaAnomalyScoreResult s2 X := by
  unfold pcaAnomalyScoreResult
  rw [hX, hf]

theorem pcaAnomalyScoreResult_some_of_stored {d : ℕ} (s : PCAState d)
    (Y : List (Fin d → ℝ)) (h : s.X_ = some Y) :
    pcaAnomalyScoreResult s none = pcaAnomalyScoreResult s (some Y) := by
  unfold pcaAnomalyScoreResult
  rw [h]

theorem pcaFit_ok_elim {d : ℕ}
    {est : List (Fin d → ℝ) → Except PyErr (PCAParams d)}
    {s s' : PCAState d} {X : List (Fin d → ℝ)}
    (h : pcaFit est s X = (s', .ok ())) :
    ∃ p scores t, X.isEmpty = false ∧ est X = .ok p ∧
      pcaAnomalyScoreResult { s with X_ := some X, fittedPCA := some p } none
        = .ok scores ∧
      npPercentile scores (100 * (1 - s.fpr)) = .ok t ∧
      s' = { s with X_ := some X, fittedPCA := some p, threshold_ := some t } := by
  unfold pcaFit at h
  split at h
  · simp at h
  next X1 hc =>
    obtain ⟨hX1, hne⟩ := checkArray_eq_ok hc
    subst hX1
    split at h
    · simp at h
    next p he =>
      split at h
      · simp at h
      next scores hs =>
        split at h
        · simp at h
        next t hq =>
          simp only [Prod.mk.injEq] at h
          exact ⟨p, scores, t, hne, he, hs, hq, h.1.symm⟩

theorem exGM_fit_snd : (gmFit exEM exGM exX).2 = .ok () := by
  norm_num [gmFit, exEM, exGM, exX, exEMOut, checkArray, gmSetParams,
    gmAnomalyScoreResult, npPercentile]

/-- C1: for each of the two detector variants, a successful `fit(X)` leaves
the instance with a stored threshold that is exactly the
`100 * (1 - fpr)` linear-interpolation percentile (`npPercentile`) of the
anomaly scores the just-fitted instance assigns to the training matrix `X`
itself. -/
theorem C1_threshold_is_training_percentile :
    (∀ (d : ℕ) (em : List (Fin d → ℝ) → Except PyErr (EMOut d))
      (s s' : GMState d) (X : List (Fin d → ℝ)),
      gmFit em s X = (s', .ok ()) →
      ∃ scores t, (gmAnomalyScore s' X).2 = .ok scores ∧
        s'.threshold_ = some t ∧
        npPercentile scores (100 * (1 - s'.fpr)) = .ok t)
    ∧ (∀ (d : ℕ) (est : List (Fin d → ℝ) → Except PyErr (PCAParams d))
      (s s' : PCAState d) (X : List (Fin d → ℝ)),
      pcaFit est s X = (s', .ok ()) →
      ∃ scores t, (pcaAnomalyScore s' (some X)).2 = .ok scores ∧
        s'.threshold_ = some t ∧
        npPercentile scores (100 * (1 - s'.fpr)) = .ok t) := by
  constructor
  · intro d em s s' X h
    obtain ⟨r, scores, t, hne, he, hs, hq, rfl⟩ := gmFit_ok_elim h
    refine ⟨scores, t, ?_, rfl, hq⟩
    simp only [gmAnomalyScore]
    rw [gmAnomalyScoreResult_congr { gmSetParams s r with threshold_ := some t }
      (gmSetParams s r) X rfl rfl rfl rfl]
    exact hs
  · intro d est s s' X h
    obtain ⟨p, scores, t, hne, he, hs, hq, rfl⟩ := pcaFit_ok_elim h
    refine ⟨scores, t, ?_, rfl, hq⟩
    simp only [pcaAnomalyScore]
    rw [pcaAnomalyScoreResult_congr
      { s with X_ := some X, fittedPCA := some p, threshold_ := some t }
      { s with X_ := some X, fittedPCA := some p } (some X) rfl rfl]
    rw [← pcaAnomalyScoreResult_some_of_stored
      { s with X_ := some X, fittedPCA := some p } X rfl]
    exact hs

/-- Witness for C1 at a concrete one-sample fit of the mixture detector. -/
theorem C1_threshold_is_training_percentile_witness :
    ∃ s', gmFit exEM exGM exX = (s', .ok ()) ∧
      ∃ scores t, (gmAnomalyScore s' exX).2 = .ok scores ∧
        s'.threshold_ = some t ∧
        npPercentile scores (100 * (1 - s'.fpr)) = .ok t := by
  have hfit : gmFit exEM exGM exX = ((gmFit exEM exGM exX).1, .ok ()) := by
    rw [show gmFit exEM exGM exX
        = ((gmFit exEM exGM exX).1, (gmFit exEM exGM exX).2) from rfl, exGM_fit_snd]
  exact ⟨_, hfit,
    C1_threshold_is_training_percentile.1 1 exEM exGM _ exX hfit⟩

theorem gmScoreRuns_pure {d : ℕ} (s : GMState d)
    (Xs : List (List (Fin d → ℝ))) :
    gmScoreRuns s Xs = (s, Xs.map fun X => (gmAnomalyScore s X).2) := by
  induction Xs with
  | nil => rfl
  | cons X rest ih => simp [gmScoreRuns, gmAnomalyScore, ih]

theorem pcaScoreRuns_pure {d : ℕ} (s : PCAState d)
    (Xs : List (Option (List (Fin d → ℝ)))) :
    pcaScoreRuns s Xs = (s, Xs.map fun X => (pcaAnomalyScore s X).2) := by
  induction Xs with
  | nil => rfl
  | cons X rest ih => simp [pcaScoreRuns, pcaAnomalyScore, ih]

/-- C9: for both detectors, the scoring methods (`anomaly_score`, and for the
reconstruction detector also `reconstruct` and `score`) assign no attribute:
each call leaves the instance state unchanged, and any sequence of
`anomaly_score` calls leaves the state unchanged and returns, for each call,
exactly the result a single call on the original state returns (so repeated
scoring of the same input returns the same result). -/
theorem C9_scoring_is_pure :
    (∀ (d : ℕ) (s : GMState d) (X : List (Fin d → ℝ)),
      (gmAnomalyScore s X).1 = s)
    ∧ (∀ (d : ℕ) (s : PCAState d) (X : Option (List (Fin d → ℝ))),
      (pcaAnomalyScore s X).1 = s)
    ∧ (∀ (d : ℕ) (s : PCAState d) (X : List (Fin d → ℝ)),
      (pcaReconstruct s X).1 = s)
    ∧ (∀ (d : ℕ) (ext : PCAParams d → List (Fin d → ℝ) → ℝ)
      (s : PCAState d) (X : List (Fin d → ℝ)), (pcaScore ext s X).1 = s)
    ∧ (∀ (d : ℕ) (s : GMState d) (Xs : List (List (Fin d → ℝ))),
      gmScoreRuns s Xs = (s, Xs.map fun X => (gmAnomalyScore s X).2))
    ∧ (∀ (d : ℕ) (s : PCAState d) (Xs : List (Option (List (Fin d → ℝ)))),
      pcaScoreRuns s Xs = (s, Xs.map fun X => (pcaAnomalyScore s X).2)) :=
  ⟨fun _ _ _ => rfl, fun _ _ _ => rfl, fun _ _ _ => rfl, fun _ _ _ _ => rfl,
    fun _ => gmScoreRuns_pure, fun _ => pcaScoreRuns_pure⟩

theorem pcaAnomalyScoreResult_ok_elim {d : ℕ} {s : PCAState d}
    {X : Option (List (Fin d → ℝ))} {scores : List ℝ}
    (h : pcaAnomalyScoreResult s X = .ok scores) :
    ∃ (p : PCAParams d) (X0 : List (Fin d → ℝ)),
      s.fittedPCA = some p ∧ scores = X0.map (pcaScoreSample p) := by
  rcases s with ⟨f, fp, sX, t⟩
  rcases X with _ | X0
  · rcases sX with _ | X1
    · simp [pcaAnomalyScoreResult] at h
    · rcases fp with _ | p
      · simp [pcaAnomalyScoreResult] at h
      · refine ⟨p, X1, rfl, ?_⟩
        simp [pcaAnomalyScoreResult] at h
        exact h.symm
  · rcases fp with _ | p
    · simp [pcaAnomalyScoreResult] at h
    · refine ⟨p, X0, rfl, ?_⟩
      simp [pcaAnomalyScoreResult] at h
      exact h.symm

/-- C10: every entry of a successfully returned `PCA.anomaly_score` vector is
nonnegative (each entry is the square root of a sum of squared residuals),
for every state and every input, including the `X = None` default that scores
the stored training matrix. -/
theorem C10_pca_scores_nonneg :
    ∀ (d : ℕ) (s : PCAState d) (X : Option (List (Fin d → ℝ)))
      (scores : List ℝ),
      (pcaAnomalyScore s X).2 = .ok scores → ∀ v ∈ scores, 0 ≤ v := by
  intro d s X scores h v hv
  obtain ⟨p, X0, hp, rfl⟩ := pcaAnomalyScoreResult_ok_elim h
  obtain ⟨x, hx, rfl⟩ := List.mem_map.mp hv
  exact Real.sqrt_nonneg _

/-- Witness for C10 at a concrete fitted state scoring its stored training
matrix. -/
theorem C10_pca_scores_nonneg_witness :
    (pcaAnomalyScore exPCA none).2 = .ok (exX.map (pcaScoreSample exP))
    ∧ ∀ v ∈ exX.map (pcaScoreSample exP), 0 ≤ v :=
  ⟨rfl, C10_pca_scores_nonneg 1 exPCA none _ rfl⟩

theorem checkArray_error_eq {d : ℕ} {X : List (Fin d → ℝ)} {e : PyErr}
    (h : checkArray X = .error e) : e = .valueError := by
  unfold checkArray at h
  by_cases hX : X.isEmpty
  · simp [hX] at h
    exact h.symm
  · simp [hX] at h

theorem gmAnomalyScoreResult_ne_notFitted {d : ℕ} (s : GMState d)
    (w : List ℝ) (m : List (Fin d → ℝ)) (c q : List (Matrix (Fin d) (Fin d) ℝ))
    (hw : s.weights_ = some w) (hm : s.means_ = some m)
    (hc : s.covariances_ = some c) (hp : s.precisions_ = some q)
    (X : List (Fin d → ℝ)) :
    gmAnomalyScoreResult s X ≠ .error .notFitted := by
  unfold gmAnomalyScoreResult
  rw [hw, hm, hc, hp]
  cases hca : checkArray X with
  | error e =>
    have he := checkArray_error_eq hca
    subst he
    simp [hca]
  | ok X1 => simp [hca]

theorem pcaAnomalyScoreResult_ne_notFitted {d : ℕ} (s : PCAState d)
    (p : PCAParams d) (Z : List (Fin d → ℝ))
    (hp : s.fittedPCA = some p) (hX : s.X_ = some Z)
    (Y : Option (List (Fin d → ℝ))) :
    pcaAnomalyScoreResult s Y ≠ .error .notFitted := by
  rcases Y with _ | Y0
  · unfold pcaAnomalyScoreResult
    rw [hX, hp]
    simp
  · unfold pcaAnomalyScoreResult
    rw [hp]
    simp

theorem pcaNew_ok_elim {d : ℕ} {fpr : ℝ} {s : PCAState d}
    (h : pcaNew d fpr = .ok s) : s = ⟨fpr, none, none, none⟩ := by
  unfold pcaNew at h
  by_cases hf : fpr < 0 ∨ 1 < fpr
  · simp [hf] at h
  · simp [hf] at h
    exact h.symm

/-- Counterexample to C2 as stated: on a freshly constructed reconstruction
detector (a successful construction), `anomaly_score` with `X` omitted fails
with an `AttributeError` (the missing `X_` attribute), not with a
`NotFitted` error. -/
theorem C2_counterexample :
    pcaNew 1 (1 / 100) = .ok ⟨1 / 100, none, none, none⟩
    ∧ (pcaAnomalyScore (⟨1 / 100, none, none, none⟩ : PCAState 1) none).2
        = .error .attributeError
    ∧ PyErr.attributeError ≠ PyErr.notFitted := by
  refine ⟨?_, rfl, by decide⟩
  norm_num [pcaNew]

/-- C2 (amended): the mixture detector's `anomaly_score` fails with
`NotFitted` exactly while any of the four fitted attributes is absent, and
never after a successful fit.  The reconstruction detector's scoring methods
fail with `NotFitted` on a freshly constructed instance when given an explicit
`X` (`anomaly_score(X)`, `reconstruct`, `score`), but `anomaly_score` with `X`
omitted fails with an `AttributeError` instead; after a successful fit none of
them fails with `NotFitted`. -/
theorem C2_notfitted_guard_amended :
    (∀ (d : ℕ) (s : GMState d) (X : List (Fin d → ℝ)),
      (s.weights_ = none ∨ s.means_ = none ∨ s.covariances_ = none ∨
        s.precisions_ = none) →
      (gmAnomalyScore s X).2 = .error .notFitted)
    ∧ (∀ (d : ℕ) (em : List (Fin d → ℝ) → Except PyErr (EMOut d))
      (s s' : GMState d) (X : List (Fin d → ℝ)),
      gmFit em s X = (s', .ok ()) →
      ∀ (Y : List (Fin d → ℝ)), (gmAnomalyScore s' Y).2 ≠ .error .notFitted)
    ∧ (∀ (d : ℕ) (fpr : ℝ) (s : PCAState d), pcaNew d fpr = .ok s →
      (pcaAnomalyScore s none).2 = .error .attributeError
        ∧ (∀ X, (pcaAnomalyScore s (some X)).2 = .error .notFitted)
        ∧ (∀ X, (pcaReconstruct s X).2 = .error .notFitted)
        ∧ (∀ ext X, (pcaScore ext s X).2 = .error .notFitted))
    ∧ (∀ (d : ℕ) (est : List (Fin d → ℝ) → Except PyErr (PCAParams d))
      (s s' : PCAState d) (X : List (Fin d → ℝ)),
      pcaFit est s X = (s', .ok ()) →
      (∀ Y, (pcaAnomalyScore s' Y).2 ≠ .error .notFitted)
        ∧ (∀ Y, (pcaReconstruct s' Y).2 ≠ .error .notFitted)
        ∧ (∀ ext Y, (pcaScore ext s' Y).2 ≠ .error .notFitted)) := by
  refine ⟨?_, ?_, ?_, ?_⟩
  · intro d s X h
    exact gmAnomalyScoreResult_notFitted h X
  · intro d em s s' X h Y
    obtain ⟨r, scores, t, hne, he, hs, hq, rfl⟩ := gmFit_ok_elim h
    exact gmAnomalyScoreResult_ne_notFitted
      { gmSetParams s r with threshold_ := some t }
      r.weights r.means r.covariances r.precisions rfl rfl rfl rfl Y
  · intro d fpr s h
    obtain rfl := pcaNew_ok_elim h
    exact ⟨rfl, fun X => rfl, fun X => rfl, fun ext X => rfl⟩
  · intro d est s s' X h
    obtain ⟨p, scores, t, hne, he, hs, hq, rfl⟩ := pcaFit_ok_elim h
    refine ⟨fun Y => pcaAnomalyScoreResult_ne_notFitted
      { s with X_ := some X, fittedPCA := some p, threshold_ := some t }
      p X rfl rfl Y, fun Y => ?_, fun ext Y => ?_⟩
    · simp [pcaReconstruct, pcaReconstructResult]
    · simp [pcaScore, pcaScoreResult]

/-- Witness for C2 (amended) on a freshly constructed reconstruction
detector with `fpr = 1/100`, scoring the concrete matrix `exX`. -/
theorem C2_notfitted_guard_amended_witness :
    (pcaAnomalyScore (⟨1 / 100, none, none, none⟩ : PCAState 1) none).2
        = .error .attributeError
    ∧ (pcaAnomalyScore (⟨1 / 100, none, none, none⟩ : PCAState 1) (some exX)).2
        = .error .notFitted
    ∧ (pcaReconstruct (⟨1 / 100, none, none, none⟩ : PCAState 1) exX).2
        = .error .notFitted
    ∧ (pcaScore (fun _ _ => 0) (⟨1 / 100, none, none, none⟩ : PCAState 1) exX).2
        = .error .notFitted := by
  have h := C2_notfitted_guard_amended.2.2.1 1 (1 / 100)
    ⟨1 / 100, none, none, none⟩ (by norm_num [pcaNew])
  exact ⟨h.1, h.2.1 exX, h.2.2.1 exX, h.2.2.2 (fun _ _ => 0) exX⟩

theorem gmFit_checkArray_error {d : ℕ}
    {em : List (Fin d → ℝ) → Except PyErr (EMOut d)} {s : GMState d}
    {X : List (Fin d → ℝ)} {e : PyErr} (h : checkArray X = .error e) :
    gmFit em s X = (s, .error e) := by
  unfold gmFit
  simp only [h]

theorem gmFit_calibration_error {d : ℕ}
    {em : List (Fin d → ℝ) → Except PyErr (EMOut d)} {s : GMState d}
    {X : List (Fin d → ℝ)} {r : EMOut d}
    (hne : X.isEmpty = false) (he : em X = .ok r)
    (hq : 100 * (1 - s.fpr) < 0 ∨ 100 < 100 * (1 - s.fpr)) :
    gmFit em s X = (gmSetParams s r, .error .valueError) := by
  have hsc : gmAnomalyScoreResult (gmSetParams s r) X
      = .ok (X.map (gmScoreSample r.weights r.means r.covariances)) :=
    gmAnomalyScoreResult_fitted rfl rfl rfl rfl hne
  have hqe : npPercentile (X.map (gmScoreSample r.weights r.means r.covariances))
      (100 * (1 - s.fpr)) = .error .valueError := by
    unfold npPercentile
    rw [if_pos hq]
  unfold gmFit
  simp only [checkArray_not_empty hne, he, hsc, hqe]

theorem pcaFit_checkArray_error {d : ℕ}
    {est : List (Fin d → ℝ) → Except PyErr (PCAParams d)} {s : PCAState d}
    {X : List (Fin d → ℝ)} {e : PyErr} (h : checkArray X = .error e) :
    pcaFit est s X = (s, .error e) := by
  unfold pcaFit
  simp only [h]

theorem pcaFit_est_error {d : ℕ}
    {est : List (Fin d → ℝ) → Except PyErr (PCAParams d)} {s : PCAState d}
    {X : List (Fin d → ℝ)} {e : PyErr}
    (hne : X.isEmpty = false) (he : est X = .error e) :
    pcaFit est s X = ({ s with X_ := some X }, .error e) := by
  unfold pcaFit
  simp only [checkArray_not_empty hne, he]

/-- Counterexample to C3 as stated: constructing the mixture detector with
`fpr = 1.5` succeeds (the constructor performs no validation), instead of
failing with an `InvalidParameter` error. -/
theorem C3_counterexample :
    gmNew 1 (3 / 2) = .ok exBadGM := rfl

/-- C3 (amended): only the reconstruction detector validates `fpr` eagerly at
construction — it fails with a `ValueError` exactly when `fpr` lies outside
`[0, 1]`, and the boundary values `0` and `1` are accepted.  The mixture
detector's constructor performs no validation and always succeeds; with
`fpr = 1.5` the failure is deferred to fit time, where `np.percentile`
rejects the percentile `100 * (1 - 1.5)` with a `ValueError` (after the
fitted attributes have already been assigned). -/
theorem C3_eager_validation_amended :
    (∀ (d : ℕ) (fpr : ℝ),
      pcaNew d fpr = .error .valueError ↔ (fpr < 0 ∨ 1 < fpr))
    ∧ (∀ d : ℕ, pcaNew d 0 = .ok ⟨0, none, none, none⟩)
    ∧ (∀ d : ℕ, pcaNew d 1 = .ok ⟨1, none, none, none⟩)
    ∧ (∀ (d : ℕ) (fpr : ℝ),
      gmNew d fpr = .ok ⟨fpr, none, none, none, none, none⟩)
    ∧ (∀ (d : ℕ) (em : List (Fin d → ℝ) → Except PyErr (EMOut d))
      (s : GMState d) (X : List (Fin d → ℝ)) (r : EMOut d),
      s.fpr = 3 / 2 → X.isEmpty = false → em X = .ok r →
      gmFit em s X = (gmSetParams s r, .error .valueError)) := by
  refine ⟨?_, ?_, ?_, fun d fpr => rfl, ?_⟩
  · intro d fpr
    unfold pcaNew
    by_cases hf : fpr < 0 ∨ 1 < fpr
    · simp [hf]
    · simp [hf]
  · intro d
    norm_num [pcaNew]
  · intro d
    norm_num [pcaNew]
  · intro d em s X r hf hne he
    refine gmFit_calibration_error hne he ?_
    rw [hf]
    norm_num

/-- Witness for C3 (amended): the reconstruction detector rejects
`fpr = 1.5` at construction, while the mixture detector accepts it and its
fit fails at calibration with the fitted attributes already assigned. -/
theorem C3_eager_validation_amended_witness :
    pcaNew 1 (3 / 2) = .error .valueError
    ∧ gmFit exEM exBadGM exX = (gmSetParams exBadGM exEMOut, .error .valueError) := by
  have h := C3_eager_validation_amended
  exact ⟨(h.1 1 (3 / 2)).mpr (by norm_num),
    h.2.2.2.2 1 exEM exBadGM exX exEMOut (by norm_num [exBadGM]) rfl rfl⟩

/-- Counterexample to C4 as stated: the mixture detector constructed with
`fpr = 1.5` starts unfitted, its fit on `exX` fails (at calibration), and yet
the instance is left with the fitted attributes assigned
(`weights_ = some [1]`) while `threshold_` is still absent — rather than
remaining unfitted exactly as before the call. -/
theorem C4_counterexample :
    exBadGM.weights_ = none ∧ exBadGM.threshold_ = none
    ∧ gmFit exEM exBadGM exX = (gmSetParams exBadGM exEMOut, .error .valueError)
    ∧ (gmSetParams exBadGM exEMOut).weights_ = some [1]
    ∧ (gmSetParams exBadGM exEMOut).threshold_ = none := by
  refine ⟨rfl, rfl, ?_, rfl, rfl⟩
  refine gmFit_calibration_error rfl rfl ?_
  norm_num [exBadGM]

/-- C4 (amended): fit is atomic only with respect to the initial input
validation: a `check_array` failure leaves either detector exactly in its
pre-call state.  Once estimation has succeeded, the mixture detector's fitted
attributes are already assigned, so a calibration failure (an out-of-range
percentile `100 * (1 - fpr)`) leaves the fitted attributes present while
`threshold_` keeps its previous value; the reconstruction detector assigns
the stored training matrix `X_` before estimation, so an estimation failure
leaves `X_` updated.  Only a fully successful fit establishes both the fitted
attributes and the threshold. -/
theorem C4_fit_atomicity_amended :
    (∀ (d : ℕ) (em : List (Fin d → ℝ) → Except PyErr (EMOut d))
      (s : GMState d) (X : List (Fin d → ℝ)) (e : PyErr),
      checkArray X = .error e → gmFit em s X = (s, .error e))
    ∧ (∀ (d : ℕ) (em : List (Fin d → ℝ) → Except PyErr (EMOut d))
      (s : GMState d) (X : List (Fin d → ℝ)) (r : EMOut d),
      X.isEmpty = false → em X = .ok r →
      (100 * (1 - s.fpr) < 0 ∨ 100 < 100 * (1 - s.fpr)) →
      gmFit em s X = (gmSetParams s r, .error .valueError)
        ∧ (gmSetParams s r).weights_ = some r.weights
        ∧ (gmSetParams s r).threshold_ = s.threshold_)
    ∧ (∀ (d : ℕ) (est : List (Fin d → ℝ) → Except PyErr (PCAParams d))
      (s : PCAState d) (X : List (Fin d → ℝ)) (e : PyErr),
      checkArray X = .error e → pcaFit est s X = (s, .error e))
    ∧ (∀ (d : ℕ) (est : List (Fin d → ℝ) → Except PyErr (PCAParams d))
      (s : PCAState d) (X : List (Fin d → ℝ)) (e : PyErr),
      X.isEmpty = false → est X = .error e →
      (pcaFit est s X).1.X_ = some X ∧ (pcaFit est s X).1.fittedPCA = s.fittedPCA
        ∧ (pcaFit est s X).2 = .error e)
    ∧ (∀ (d : ℕ) (em : List (Fin d → ℝ) → Except PyErr (EMOut d))
      (s s' : GMState d) (X : List (Fin d → ℝ)),
      gmFit em s X = (s', .ok ()) →
      s'.weights_.isSome ∧ s'.means_.isSome ∧ s'.covariances_.isSome
        ∧ s'.precisions_.isSome ∧ s'.threshold_.isSome)
    ∧ (∀ (d : ℕ) (est : List (Fin d → ℝ) → Except PyErr (PCAParams d))
      (s s' : PCAState d) (X : List (Fin d → ℝ)),
      pcaFit est s X = (s', .ok ()) →
      s'.fittedPCA.isSome ∧ s'.X_.isSome ∧ s'.threshold_.isSome) := by
  refine ⟨?_, ?_, ?_, ?_, ?_, ?_⟩
  · intro d em s X e h
    exact gmFit_checkArray_error h
  · intro d em s X r hne he hq
    exact ⟨gmFit_calibration_error hne he hq, rfl, rfl⟩
  · intro d est s X e h
    exact pcaFit_checkArray_error h
  · intro d est s X e hne he
    rw [pcaFit_est_error hne he]
    exact ⟨rfl, rfl, rfl⟩
  · intro d em s s' X h
    obtain ⟨r, scores, t, hne, he, hs, hq, rfl⟩ := gmFit_ok_elim h
    exact ⟨rfl, rfl, rfl, rfl, rfl⟩
  · intro d est s s' X h
    obtain ⟨p, scores, t, hne, he, hs, hq, rfl⟩ := pcaFit_ok_elim h
    exact ⟨rfl, rfl, rfl⟩

/-- Witness for C4 (amended): the calibration-failure conjunct at the
concrete bad-`fpr` mixture state, and the validation-failure conjunct at the
empty training matrix. -/
theorem C4_fit_atomicity_amended_witness :
    (gmFit exEM exBadGM exX = (gmSetParams exBadGM exEMOut, .error .valueError)
      ∧ (gmSetParams exBadGM exEMOut).weights_ = some exEMOut.weights
      ∧ (gmSetParams exBadGM exEMOut).threshold_ = exBadGM.threshold_)
    ∧ gmFit exEM exGM ([] : List (Fin 1 → ℝ)) = (exGM, .error .valueError) := by
  have h := C4_fit_atomicity_amended
  exact ⟨h.2.1 1 exEM exBadGM exX exEMOut rfl rfl (by norm_num [exBadGM]),
    h.1 1 exEM exGM [] .valueError rfl⟩

theorem zip_ofFn_ofFn {α β : Type} {K : ℕ} (f : Fin K → α) (g : Fin K → β) :
    (List.ofFn f).zip (List.ofFn g) = List.ofFn (fun k => (f k, g k)) := by
  apply List.ext_getElem
  · simp
  · intro n h1 h2
    simp [List.getElem_zip]

theorem gmScoreSample_ofFn {d K : ℕ} (w : Fin K → ℝ) (m : Fin K → Fin d → ℝ)
    (c : Fin K → Matrix (Fin d) (Fin d) ℝ) (x : Fin d → ℝ) :
    gmScoreSample (List.ofFn w) (List.ofFn m) (List.ofFn c) x
      = -Real.log (∑ k, w k * multivariateNormalPdf (m k) (c k) x) := by
  unfold gmScoreSample
  rw [zip_ofFn_ofFn, zip_ofFn_ofFn, List.map_ofFn, List.sum_ofFn]
  simp [Function.comp]

theorem gmAnomalyScoreResult_ok_elim {d : ℕ} {s : GMState d}
    {X : List (Fin d → ℝ)} {scores : List ℝ}
    (h : gmAnomalyScoreResult s X = .ok scores) :
    ∃ w m c, s.weights_ = some w ∧ s.means_ = some m ∧
      s.covariances_ = some c ∧ scores = X.map (gmScoreSample w m c) := by
  rcases s with ⟨f, ow, om, oc, op, t⟩
  rcases ow with _ | w
  · simp [gmAnomalyScoreResult] at h
  rcases om with _ | m
  · simp [gmAnomalyScoreResult] at h
  rcases oc with _ | c
  · simp [gmAnomalyScoreResult] at h
  rcases op with _ | p
  · simp [gmAnomalyScoreResult] at h
  cases hca : checkArray X with
  | error e => simp [gmAnomalyScoreResult, hca] at h
  | ok X1 =>
    obtain ⟨rfl, hne⟩ := checkArray_eq_ok hca
    simp [gmAnomalyScoreResult, hca] at h
    exact ⟨w, m, c, rfl, rfl, rfl, h.symm⟩

/-- C5: for a fitted mixture detector whose `K` fitted weights, means and
covariances are given by the indexed families `w`, `m`, `c`, a successful
`anomaly_score(X)` returns, for every sample `x` of `X`, exactly
`-log (Σ_k w_k · N(x; m_k, c_k))`, the negative logarithm of the weighted sum
over the components of the multivariate normal density at `x`. -/
theorem C5_mixture_score_formula :
    ∀ (d K : ℕ) (s : GMState d) (w : Fin K → ℝ) (m : Fin K → Fin d → ℝ)
      (c : Fin K → Matrix (Fin d) (Fin d) ℝ)
      (q : List (Matrix (Fin d) (Fin d) ℝ)) (X : List (Fin d → ℝ))
      (scores : List ℝ),
      s.weights_ = some (List.ofFn w) → s.means_ = some (List.ofFn m) →
      s.covariances_ = some (List.ofFn c) → s.precisions_ = some q →
      (gmAnomalyScore s X).2 = .ok scores →
      scores = X.map (fun x =>
        -Real.log (∑ k, w k * multivariateNormalPdf (m k) (c k) x)) := by
  intro d K s w m c q X scores hw hm hc hp h
  obtain ⟨w1, m1, c1, hw1, hm1, hc1, rfl⟩ := gmAnomalyScoreResult_ok_elim h
  rw [hw] at hw1
  rw [hm] at hm1
  rw [hc] at hc1
  simp only [Option.some.injEq] at hw1 hm1 hc1
  subst hw1
  subst hm1
  subst hc1
  rw [show gmScoreSample (List.ofFn w) (List.ofFn m) (List.ofFn c)
      = (fun x => -Real.log (∑ k, w k * multivariateNormalPdf (m k) (c k) x))
    from funext fun x => gmScoreSample_ofFn w m c x]

/-- Witness for C5 at the concrete one-component fitted state. -/
theorem C5_mixture_score_formula_witness :
    (gmAnomalyScore exGMF exX).2
      = .ok (exX.map (gmScoreSample (List.ofFn exW) (List.ofFn exM)
          (List.ofFn exC)))
    ∧ exX.map (gmScoreSample (List.ofFn exW) (List.ofFn exM) (List.ofFn exC))
      = exX.map (fun x =>
          -Real.log (∑ k, exW k * multivariateNormalPdf (exM k) (exC k) x)) :=
  ⟨rfl, C5_mixture_score_formula 1 1 exGMF exW exM exC [1] exX _
    rfl rfl rfl rfl rfl⟩

theorem euclNorm_eq_sqrt_sum {d : ℕ} (v : Fin d → ℝ) :
    euclNorm v = Real.sqrt (∑ j, v j ^ 2) := by
  unfold euclNorm
  rw [EuclideanSpace.norm_eq]
  congr 1
  refine Finset.sum_congr rfl fun j _ => ?_
  rw [WithLp.equiv_symm_pi_apply, Real.norm_eq_abs, sq_abs]

theorem pcaScoreSample_eq_euclNorm {d : ℕ} (p : PCAParams d) (x : Fin d → ℝ) :
    pcaScoreSample p x = euclNorm (x - pcaReconstructOne p x) := by
  rw [euclNorm_eq_sqrt_sum]
  rfl

theorem zip_self_map {α β : Type} (l : List α) (g : α → β) :
    l.zip (l.map g) = l.map (fun a => (a, g a)) := by
  induction l with
  | nil => rfl
  | cons a l ih => simp [ih]

/-- C7: for a fitted reconstruction detector, a successful `anomaly_score(X)`
returns, for each sample, the Euclidean norm of the sample minus its
`reconstruct` image (the sample projected onto the retained principal
components and mapped back to feature space). -/
theorem C7_pca_score_is_residual_norm :
    ∀ (d : ℕ) (s : PCAState d) (p : PCAParams d) (X : List (Fin d → ℝ))
      (scores : List ℝ) (recs : List (Fin d → ℝ)),
      s.fittedPCA = some p →
      (pcaAnomalyScore s (some X)).2 = .ok scores →
      (pcaReconstruct s X).2 = .ok recs →
      scores = (X.zip recs).map (fun q => euclNorm (q.1 - q.2)) := by
  intro d s p X scores recs hp hs hr
  have hs' : pcaAnomalyScoreResult s (some X) = .ok scores := hs
  have hr' : pcaReconstructResult s X = .ok recs := hr
  simp only [pcaAnomalyScoreResult, hp] at hs'
  simp only [pcaReconstructResult, hp] at hr'
  simp only [Except.ok.injEq] at hs' hr'
  subst hs'
  subst hr'
  rw [zip_self_map, List.map_map]
  refine List.map_congr_left fun x _ => ?_
  exact pcaScoreSample_eq_euclNorm p x

/-- Witness for C7 at the concrete fitted reconstruction-detector state. -/
theorem C7_pca_score_is_residual_norm_witness :
    (pcaAnomalyScore exPCA (some exX)).2 = .ok (exX.map (pcaScoreSample exP))
    ∧ (pcaReconstruct exPCA exX).2 = .ok (exX.map (pcaReconstructOne exP))
    ∧ exX.map (pcaScoreSample exP)
      = ((exX.zip (exX.map (pcaReconstructOne exP))).map
          (fun q => euclNorm (q.1 - q.2))) :=
  ⟨rfl, rfl, C7_pca_score_is_residual_norm 1 exPCA exP exX _ _ rfl rfl rfl⟩

theorem pcaReconstructOne_of_orthonormal {d : ℕ}
    (C : Matrix (Fin d) (Fin d) ℝ) (μ x : Fin d → ℝ)
    (hC : C * C.transpose = 1) :
    pcaReconstructOne ⟨d, C, μ⟩ x = x := by
  have hCt : C.transpose * C = 1 := Matrix.mul_eq_one_comm.mp hC
  show C.transpose.mulVec (C.mulVec (x - μ)) + μ = x
  rw [Matrix.mulVec_mulVec, hCt, Matrix.one_mulVec]
  simp

theorem pcaScoreSample_of_orthonormal {d : ℕ}
    (C : Matrix (Fin d) (Fin d) ℝ) (μ x : Fin d → ℝ)
    (hC : C * C.transpose = 1) :
    pcaScoreSample ⟨d, C, μ⟩ x = 0 := by
  unfold pcaScoreSample
  rw [pcaReconstructOne_of_orthonormal C μ x hC]
  simp

/-- C8: when the fitted internal estimator retains all `d` components — its
components matrix is square with orthonormal rows, as the SVD guarantees when
no dimensionality reduction is requested — `reconstruct` is the identity on
every sample, and the anomaly score of every training sample (scored by the
`X = None` default) is exactly `0`. -/
theorem C8_full_components_roundtrip :
    ∀ (d : ℕ) (C : Matrix (Fin d) (Fin d) ℝ) (μ : Fin d → ℝ) (f : ℝ)
      (X : List (Fin d → ℝ)) (t : Option ℝ),
      C * C.transpose = 1 →
      (pcaReconstruct ⟨f, some ⟨d, C, μ⟩, some X, t⟩ X).2 = .ok X
      ∧ (pcaAnomalyScore ⟨f, some ⟨d, C, μ⟩, some X, t⟩ none).2
          = .ok (X.map fun _ => (0 : ℝ)) := by
  intro d C μ f X t hC
  constructor
  · show pcaReconstructResult ⟨f, some ⟨d, C, μ⟩, some X, t⟩ X = .ok X
    simp only [pcaReconstructResult]
    rw [show X.map (pcaReconstructOne (⟨d, C, μ⟩ : PCAParams d)) = X by
      rw [show pcaReconstructOne (⟨d, C, μ⟩ : PCAParams d) = id
        from funext fun x => pcaReconstructOne_of_orthonormal C μ x hC]
      exact List.map_id X]
  · show pcaAnomalyScoreResult ⟨f, some ⟨d, C, μ⟩, some X, t⟩ none
      = .ok (X.map fun _ => (0 : ℝ))
    simp only [pcaAnomalyScoreResult]
    rw [show X.map (pcaScoreSample (⟨d, C, μ⟩ : PCAParams d))
        = X.map (fun _ => (0 : ℝ))
      from List.map_congr_left fun x _ =>
        pcaScoreSample_of_orthonormal C μ x hC]

/-- Witness for C8: the identity components matrix in one dimension on the
concrete training matrix `exX`. -/
theorem C8_full_components_roundtrip_witness :
    (pcaReconstruct
        (⟨1 / 100, some ⟨1, 1, fun _ => 0⟩, some exX, none⟩ : PCAState 1)
        exX).2 = .ok exX
    ∧ (pcaAnomalyScore
        (⟨1 / 100, some ⟨1, 1, fun _ => 0⟩, some exX, none⟩ : PCAState 1)
        none).2 = .ok (exX.map fun _ => (0 : ℝ)) :=
  C8_full_components_roundtrip 1 1 (fun _ => 0) (1 / 100) exX none (by simp)
